import Mathlib

/-!
# Verification of the Quiz Master scheduled reporting and notification pipeline

Shallow embedding of the reporting/notification core of the Quiz Master
application (`tasks.py`, record shapes from `models.py`).  Database tables are
modelled as lists of rows in physical scan order, SQL clauses as list
operations (`filter`, stable `insertionSort`, `take`), the datetime values of
`date`/`datetime` as explicit year/month/day(/hour/minute/second) structures
compared lexicographically, and the network transports (HTTP post, Twilio
send) as oracle functions supplied by the environment.  Calendar arithmetic
performed by the runtime (`datetime.now() - timedelta(days=3)`) is passed in
as an environment field.  Python exceptions are modelled with `Except`.
-/

/-- A calendar date, as Python's `datetime.date`: year, month, day.
Comparison is lexicographic (Python compares dates componentwise). -/
structure Date where
  year : Int
  month : Nat
  day : Nat
deriving DecidableEq, Repr

/-- Comparison `a ≤ b` on dates, lexicographic on (year, month, day). -/
def dateBle (a b : Date) : Bool :=
  a.year < b.year ||
    (a.year == b.year &&
      (a.month < b.month || (a.month == b.month && a.day ≤ b.day)))

/-- Comparison `a < b` on dates, lexicographic on (year, month, day). -/
def dateBlt (a b : Date) : Bool :=
  a.year < b.year ||
    (a.year == b.year &&
      (a.month < b.month || (a.month == b.month && a.day < b.day)))

/-- A timestamp, as Python's `datetime.datetime`: a date plus
hour/minute/second.  Comparison is lexicographic. -/
structure DateTime where
  date : Date
  hour : Nat
  minute : Nat
  second : Nat
deriving DecidableEq, Repr

/-- Comparison `a < b` on timestamps, lexicographic. -/
def dtBlt (a b : DateTime) : Bool :=
  dateBlt a.date b.date ||
    (a.date == b.date &&
      (a.hour < b.hour ||
        (a.hour == b.hour &&
          (a.minute < b.minute ||
            (a.minute == b.minute && a.second < b.second)))))

/-- SQL comparison `d <= t` between a date bound and a datetime column, as the
store evaluates it (a datetime on day `d` compares greater than the bare date
`d`, so `d <= t` holds exactly when `d ≤ t.date` as dates). -/
def dateLeDt (d : Date) (t : DateTime) : Bool :=
  dateBle d t.date

/-- SQL comparison `t < d` between a datetime column and a date bound: holds
exactly when `t.date < d` as dates (a datetime on day `d` itself is not
below the bare date `d`). -/
def dtLtDate (t : DateTime) (d : Date) : Bool :=
  dateBlt t.date d

/-! ## Entity records (`models.py`), restricted to the fields the pipeline reads -/

/-- A `User` row (`models.py`): `username` is the email address. -/
structure User where
  id : Nat
  username : String
  full_name : String
  role : String
  last_login : Option DateTime
deriving DecidableEq, Repr

/-- A `Subject` row. -/
structure Subject where
  id : Nat
  name : String
deriving DecidableEq, Repr

/-- A `Chapter` row. -/
structure Chapter where
  id : Nat
  subject_id : Nat
  name : String
deriving DecidableEq, Repr

/-- A `Quiz` row. -/
structure Quiz where
  id : Nat
  chapter_id : Nat
  title : String
  date_of_quiz : Date
  is_active : Bool
deriving DecidableEq, Repr

/-- A `Score` row (one attempt): integer columns are modelled as `Int`,
nullable `time_taken` as `Option Int`. -/
structure Score where
  id : Nat
  quiz_id : Nat
  user_id : Nat
  score : Int
  total_questions : Int
  attempt_date : DateTime
  time_taken : Option Int
deriving DecidableEq, Repr

/-- A `UserPreference` row: the nullable text/integer columns are `Option`s so
that Python's falsy test (`None` or empty / zero) can be mirrored exactly. -/
structure UserPreference where
  id : Nat
  user_id : Nat
  notification_type : Option String
  reminder_time : Option Int
  webhook_url : Option String
  phone_number : Option String
  receive_daily_reminders : Bool
  receive_monthly_reports : Bool
deriving DecidableEq, Repr

/-- A snapshot of the database, each table as its rows in physical scan
order (for tables with an autoincrement integer primary key the store scans
rows in ascending id order). -/
structure Db where
  users : List User
  subjects : List Subject
  chapters : List Chapter
  quizzes : List Quiz
  scores : List Score
  prefs : List UserPreference

/-! ## Formatting helpers (`strftime` patterns used by the pipeline) -/

/-- Zero-pad a number to two digits (`%m`, `%d`, `%H`, `%M`, `%S`). -/
def pad2 (n : Nat) : String :=
  if n < 10 then "0" ++ toString n else toString n

/-- Zero-pad a year to four digits (`%Y`). -/
def pad4 (y : Int) : String :=
  let n := y.toNat
  (if n < 10 then "000" else if n < 100 then "00" else
    if n < 1000 then "0" else "") ++ toString n

/-- Format `strftime` pattern `%Y-%m-%d`. -/
def formatDate (d : Date) : String :=
  pad4 d.year ++ "-" ++ pad2 d.month ++ "-" ++ pad2 d.day

/-- Format `strftime` pattern `%Y-%m-%d %H:%M:%S`. -/
def formatDateTime (t : DateTime) : String :=
  formatDate t.date ++ " " ++ pad2 t.hour ++ ":" ++ pad2 t.minute ++ ":" ++
    pad2 t.second

/-- Format `strftime` pattern `%Y-%m-%d %H:%M` (monthly-report attempt dates). -/
def formatDateTimeShort (t : DateTime) : String :=
  formatDate t.date ++ " " ++ pad2 t.hour ++ ":" ++ pad2 t.minute

/-- Format `strftime` pattern `%B`: full English month name, empty when the month
number is out of range (Python dates always carry 1–12). -/
def monthName (m : Nat) : String :=
  match m with
  | 1 => "January" | 2 => "February" | 3 => "March" | 4 => "April"
  | 5 => "May" | 6 => "June" | 7 => "July" | 8 => "August"
  | 9 => "September" | 10 => "October" | 11 => "November" | 12 => "December"
  | _ => ""

/-- Format `strftime` pattern `%B %Y` (monthly report month label). -/
def formatMonthYear (d : Date) : String :=
  monthName d.month ++ " " ++ pad4 d.year

/-! ## Score percentage (`models.py` `Score.to_dict`, and the same guarded
expression at `tasks.py` lines 244, 529, 538) -/

/-- The dictionary produced by `Score.to_dict` (`models.py` lines 165–175). -/
structure ScoreDict where
  id : Nat
  quiz_id : Nat
  user_id : Nat
  score : Int
  total_questions : Int
  percentage : ℚ
  attempt_date : String
  time_taken : Option Int
deriving DecidableEq, Repr

/-- Serialization `Score.to_dict` (`models.py` lines 165–175): the `percentage` entry is
`score / total_questions * 100` guarded to `0` when `total_questions` is not
positive. -/
def Score.to_dict (s : Score) : ScoreDict :=
  { id := s.id
    quiz_id := s.quiz_id
    user_id := s.user_id
    score := s.score
    total_questions := s.total_questions
    percentage :=
      if s.total_questions > 0 then
        (s.score : ℚ) / (s.total_questions : ℚ) * 100
      else 0
    attempt_date := formatDateTime s.attempt_date
    time_taken := s.time_taken }

/-- The guarded percentage expression of `tasks.py` line 244 (per-row export
percentage): `(attempt.score / attempt.total_questions * 100) if
attempt.total_questions > 0 else 0`. -/
def exportAttemptPercentage (attempt : Score) : ℚ :=
  if attempt.total_questions > 0 then
    (attempt.score : ℚ) / (attempt.total_questions : ℚ) * 100
  else 0

/-- The guarded percentage expression of `tasks.py` line 538 (monthly report
per-attempt percentage). -/
def monthlyAttemptPercentage (attempt : Score) : ℚ :=
  if attempt.total_questions > 0 then
    (attempt.score : ℚ) / (attempt.total_questions : ℚ) * 100
  else 0

/-- The aggregate percentage of `tasks.py` lines 527–529:
`total_score / total_questions * 100` over the month's attempts, `0` when the
summed denominator is not positive. -/
def monthlyAvgPercentage (attempts : List Score) : ℚ :=
  let total_score : Int := (attempts.map (·.score)).sum
  let total_questions : Int := (attempts.map (·.total_questions)).sum
  if total_questions > 0 then
    (total_score : ℚ) / (total_questions : ℚ) * 100
  else 0

/-- Modelled from the spec: `percentage = score / total_questions * 100`,
defined as 0 when `total_questions = 0`, with no upper clamp. -/
def specPercentage (score total_questions : Int) : ℚ :=
  if total_questions = 0 then 0
  else (score : ℚ) / (total_questions : ℚ) * 100

/-! ## Rank computation (`tasks.py` lines 555–560) -/

/-- The rank query of `tasks.py` lines 555–560:
`count(Score.id) + 1` over rows of the same quiz with strictly greater score,
then Python's `or 1` (which replaces a falsy — zero — value by 1). -/
def rank_for_attempt (scores : List Score) (quiz_id : Nat) (score : Int) :
    Nat :=
  let c :=
    (scores.filter
      (fun s => s.quiz_id == quiz_id && score < s.score)).length + 1
  if c = 0 then 1 else c

/-- From `tasks.py` line 562: total number of attempts recorded for a quiz. -/
def totalAttemptsForQuiz (scores : List Score) (quiz_id : Nat) : Nat :=
  (scores.filter (fun s => s.quiz_id == quiz_id)).length

/-! ## Previous-month window (`tasks.py` lines 503–520) -/

/-- From `tasks.py` lines 503–508: `first_day` is the first of the current month;
`last_month` is the first of the preceding month, December of the previous
year when the current month is January.  Returns `(last_month, first_day)`. -/
def monthBounds (today : Date) : Date × Date :=
  let first_day : Date := ⟨today.year, today.month, 1⟩
  let last_month : Date :=
    if today.month = 1 then ⟨today.year - 1, 12, 1⟩
    else ⟨today.year, today.month - 1, 1⟩
  (last_month, first_day)

/-- The monthly-report attempt filter (`tasks.py` lines 516–520): rows of the
user whose `attempt_date` satisfies `last_month <= attempt_date < first_day`. -/
def monthlySelected (today : Date) (uid : Nat) (s : Score) : Bool :=
  s.user_id == uid &&
    dateLeDt (monthBounds today).1 s.attempt_date &&
    dtLtDate s.attempt_date (monthBounds today).2

/-- Modelled from the spec: the index of a calendar month on the time line,
so that consecutive months have consecutive indices across year boundaries. -/
def monthIndex (year : Int) (month : Nat) : Int :=
  12 * year + (month : Int)

/-! ## Google Chat webhook channel (`tasks.py` lines 281–318) -/

/-- A widget of a Google Chat card section, as built by the daily job. -/
inductive GWidget where
  | textParagraph (text : String)
  | buttonOpenLink (text : String) (url : String)
deriving DecidableEq, Repr

/-- A Google Chat card section. -/
structure GSection where
  header : Option String
  widgets : List GWidget
deriving DecidableEq, Repr

/-- The JSON payload posted to the webhook: either a plain text message or a
single card with a header title and sections. -/
inductive WebhookPayload where
  | text (message : String)
  | card (title : String) (sections : List GSection)
deriving DecidableEq, Repr

/-- Outcome of one HTTP POST as seen by the caller: a response with a status
code, or a raised transport exception. -/
inductive HttpOutcome where
  | resp (status : Nat)
  | exn (message : String)
deriving DecidableEq, Repr

/-- Python truthiness of an optional string: `None` and `""` are falsy. -/
def pyTruthyStr (s : Option String) : Bool :=
  match s with
  | none => false
  | some s => !(s == "")

/-- Python truthiness of an optional list: `None` and `[]` are falsy. -/
def pyTruthyList {α : Type} (l : Option (List α)) : Bool :=
  match l with
  | none => false
  | some l => !l.isEmpty

/-- The payload construction of `tasks.py` lines 297–306: a plain text
payload, replaced by a card when `title` or `sections` is truthy; the card
title falls back to a fixed header, the sections to the empty list. -/
def gchatPayload (message_text : String) (title : Option String)
    (sections : Option (List GSection)) : WebhookPayload :=
  if pyTruthyStr title || pyTruthyList sections then
    WebhookPayload.card
      (match title with
       | some t => if t == "" then "Quiz Master Notification" else t
       | none => "Quiz Master Notification")
      (sections.getD [])
  else
    WebhookPayload.text message_text

/-- Function `send_gchat_webhook` (`tasks.py` lines 281–318), with the HTTP transport
as an oracle `post`.  Returns the boolean result together with the list of
POST requests actually issued.  An empty `webhook_url` returns `false` before
any request; otherwise the payload is posted once and the result is `true`
exactly when the response status is 200, any transport exception being
absorbed into a `false` result. -/
def send_gchat_webhook (post : String → WebhookPayload → HttpOutcome)
    (webhook_url : String) (message_text : String) (title : Option String)
    (sections : Option (List GSection)) :
    Bool × List (String × WebhookPayload) :=
  if webhook_url == "" then (false, [])
  else
    let payload := gchatPayload message_text title sections
    match post webhook_url payload with
    | HttpOutcome.resp status => (status == 200, [(webhook_url, payload)])
    | HttpOutcome.exn _ => (false, [(webhook_url, payload)])

/-! ## SMS channel (`tasks.py` lines 320–359) -/

/-- The three Twilio configuration entries read from the app config. -/
structure TwilioConfig where
  account_sid : Option String
  auth_token : Option String
  phone_number : Option String

/-- Function `send_sms_notification` (`tasks.py` lines 320–359): returns `false` when
any of the three credentials is missing or empty, otherwise delegates to the
Twilio client (oracle `clientSend`, taking body and destination), returning
`true` on a normal return and `false` when the client raises. -/
def send_sms_notification (cfg : TwilioConfig)
    (clientSend : String → String → Except String Unit)
    (phone_number : String) (message : String) : Bool :=
  if pyTruthyStr cfg.account_sid && pyTruthyStr cfg.auth_token &&
      pyTruthyStr cfg.phone_number then
    match clientSend message phone_number with
    | Except.ok _ => true
    | Except.error _ => false
  else false

/-! ## Per-user attempts export (`tasks.py` lines 209–278) -/

/-- One data row of the per-user attempts CSV (`tasks.py` lines 246–257);
the percentage is carried as the exact rational the row formats. -/
structure AttemptRow where
  quiz_id : Nat
  quiz_title : String
  subject : String
  chapter : String
  date_attempted : String
  time_taken : Option Int
  score : Int
  total_questions : Int
  percentage : ℚ
  pass_fail : String
deriving DecidableEq, Repr

/-- Lookup `Quiz.query.get`: lookup by primary key; a missing row surfaces as the
exception the Python code would raise when dereferencing `None`. -/
def getQuiz (db : Db) (id : Nat) : Except String Quiz :=
  match db.quizzes.find? (fun q => q.id == id) with
  | some q => Except.ok q
  | none => Except.error ("quiz " ++ toString id ++ " not found")

/-- Lookup `Chapter.query.get`. -/
def getChapter (db : Db) (id : Nat) : Except String Chapter :=
  match db.chapters.find? (fun c => c.id == id) with
  | some c => Except.ok c
  | none => Except.error ("chapter " ++ toString id ++ " not found")

/-- Lookup `Subject.query.get`. -/
def getSubject (db : Db) (id : Nat) : Except String Subject :=
  match db.subjects.find? (fun s => s.id == id) with
  | some s => Except.ok s
  | none => Except.error ("subject " ++ toString id ++ " not found")

/-- Serialization of one attempt into a CSV row (`tasks.py` lines 239–257):
resolves quiz, chapter and subject, computes the guarded percentage and the
60%-threshold pass/fail flag. -/
def serializeAttemptRow (db : Db) (attempt : Score) :
    Except String AttemptRow := do
  let quiz ← getQuiz db attempt.quiz_id
  let chapter ← getChapter db quiz.chapter_id
  let subject ← getSubject db chapter.subject_id
  let percentage := exportAttemptPercentage attempt
  Except.ok
    { quiz_id := quiz.id
      quiz_title := quiz.title
      subject := subject.name
      chapter := chapter.name
      date_attempted := formatDateTime attempt.attempt_date
      time_taken := attempt.time_taken
      score := attempt.score
      total_questions := attempt.total_questions
      percentage := percentage
      pass_fail := if percentage ≥ 60 then "Pass" else "Fail" }

/-- The artifact produced by a successful per-user export: the written file
(timestamped name, serialized rows) and the returned download descriptor. -/
structure ExportArtifact where
  filename : String
  rows : List AttemptRow
  download_url : String
deriving DecidableEq, Repr

/-- Task `export_user_attempts_csv` (`tasks.py` lines 209–278), with the wall
clock timestamp of the filename as an input.  The user lookup failure raises
`ValueError("User with ID {user_id} not found")`; any row-serialization
failure aborts before anything is written; the file (the artifact) exists
only in the `ok` case, which is reached only after every row serialized. -/
def export_user_attempts_csv (db : Db) (nowStamp : String) (user_id : Nat) :
    Except String ExportArtifact := do
  match db.users.find? (fun u => u.id == user_id) with
  | none =>
      Except.error ("User with ID " ++ toString user_id ++ " not found")
  | some _ => do
      let attempts := db.scores.filter (fun s => s.user_id == user_id)
      let rows ← attempts.mapM (serializeAttemptRow db)
      let filename :=
        "user_" ++ toString user_id ++ "_attempts_" ++ nowStamp ++ ".csv"
      Except.ok
        { filename := filename
          rows := rows
          download_url := "/api/user/export/download/" ++ filename }

/-- Terminal state of a Celery task run (`tasks.py` lines 276–278): on an
exception the state is `FAILURE` with the error message attached, and the
exception is re-raised. -/
inductive TaskState (α : Type) where
  | success (value : α)
  | failure (error : String)
deriving DecidableEq, Repr

/-- The task wrapper around the per-user export: the `except` block maps an
exception to the `FAILURE` terminal state carrying the message. -/
def exportUserAttemptsTask (db : Db) (nowStamp : String) (user_id : Nat) :
    TaskState ExportArtifact :=
  match export_user_attempts_csv db nowStamp user_id with
  | Except.ok a => TaskState.success a
  | Except.error e => TaskState.failure e

/-! ## Daily reminder job (`tasks.py` lines 361–489) -/

/-- The environment a job run sees: the database snapshot, the wall clock
(`date.today()` / `datetime.now()`), the runtime-computed inactivity cutoff
`recentDate = now - timedelta(days=3)`, the transport oracles and the app
configuration read by the dispatch code. -/
structure JobEnv where
  db : Db
  today : Date
  now : DateTime
  recentDate : DateTime
  post : String → WebhookPayload → HttpOutcome
  twilio : TwilioConfig
  twilioSend : String → String → Except String Unit
  appUrl : String

/-- The `order_by(Quiz.date_of_quiz)` comparator: dates non-decreasing. -/
def quizDateLe (a b : Quiz) : Prop :=
  dateBle a.date_of_quiz b.date_of_quiz = true

instance : DecidableRel quizDateLe :=
  fun a b => instDecidableEqBool (dateBle a.date_of_quiz b.date_of_quiz) true

/-- The upcoming-quiz query (`tasks.py` lines 374–378): active quizzes dated
today or later, ordered by `date_of_quiz` (the store sorts stably over the
scan order) and truncated to 5. -/
def upcomingQuizzes (env : JobEnv) : List Quiz :=
  ((env.db.quizzes.filter
      (fun q => q.is_active && dateBle env.today q.date_of_quiz)).insertionSort
    quizDateLe).take 5

/-- The inactive-user query (`tasks.py` lines 380–385): role `user` and
never logged in or last login before the cutoff. -/
def inactiveUsers (env : JobEnv) : List User :=
  env.db.users.filter
    (fun u =>
      u.role == "user" &&
        (match u.last_login with
         | none => true
         | some t => dtBlt t env.recentDate))

/-- From `tasks.py` lines 392–394: quiz ids the user has a Score row for. -/
def attemptedQuizIds (db : Db) (uid : Nat) : List Nat :=
  (db.scores.filter (fun s => s.user_id == uid)).map (·.quiz_id)

/-- From `tasks.py` line 397: upcoming quizzes minus those already attempted. -/
def newQuizzesFor (env : JobEnv) (u : User) : List Quiz :=
  (upcomingQuizzes env).filter
    (fun q => !((attemptedQuizIds env.db u.id).contains q.id))

/-- Preference resolution (`tasks.py` lines 403–411): defaults `email` / 18
when no record exists; Python's `or` maps a falsy stored value (`None` or
empty string, `None` or zero hour) to the same defaults. -/
def resolvePref (pref : Option UserPreference) : String × Int :=
  match pref with
  | none => ("email", 18)
  | some p =>
      (match p.notification_type with
       | none => "email"
       | some s => if s == "" then "email" else s,
       match p.reminder_time with
       | none => 18
       | some t => if t = 0 then 18 else t)

/-- From `tasks.py` lines 419–423: the numbered plain-text quiz list used by the
chat and SMS messages. -/
def quizListText (new_quizzes : List Quiz) : String :=
  String.intercalate "\n"
    ((List.enumFrom 1 new_quizzes).map
      (fun qi =>
        toString qi.1 ++ ". " ++ qi.2.title ++ " (" ++
          formatDate qi.2.date_of_quiz ++ ")"))

/-- One observable dispatch performed by the daily job: the rendered email
handed to the mail transport, or a webhook / SMS attempt with its outcome. -/
inductive DailyDispatch where
  | email (recipient : String) (quizzes : List Quiz) (today : Date)
  | gchat (calls : List (String × WebhookPayload)) (ok : Bool)
  | sms (phone : String) (body : String) (ok : Bool)
deriving DecidableEq, Repr

/-- The channel dispatch for one user (`tasks.py` lines 418–483), entered
once the hour gate has passed.  Email sends unconditionally and always
counts; chat requires a truthy webhook URL and counts only on success; SMS
requires a truthy phone number and counts only on success; any other
combination silently does nothing.  Returns the dispatches and the increment
to `reminders_sent`. -/
def dispatchUser (env : JobEnv) (u : User)
    (pref : Option UserPreference) (ntype : String)
    (new_quizzes : List Quiz) : List DailyDispatch × Nat :=
  let quiz_list := quizListText new_quizzes
  if ntype == "email" then
    ([DailyDispatch.email u.username new_quizzes env.today], 1)
  else
    match pref with
    | none => ([], 0)
    | some p =>
        if ntype == "gchat" && pyTruthyStr p.webhook_url then
          let sections : List GSection :=
            [{ header := some "New Quizzes Available"
               widgets := [GWidget.textParagraph quiz_list] },
             { header := none
               widgets :=
                [GWidget.buttonOpenLink "Go to Quiz Master" env.appUrl] }]
          let r :=
            send_gchat_webhook env.post (p.webhook_url.getD "")
              ("Hi " ++ u.full_name ++ ", you have " ++
                toString new_quizzes.length ++ " new quizzes available!")
              (some "Quiz Master Daily Reminder") (some sections)
          ([DailyDispatch.gchat r.2 r.1], if r.1 then 1 else 0)
        else if ntype == "sms" && pyTruthyStr p.phone_number then
          let body :=
            "Hi " ++ u.full_name ++ ", you have " ++
              toString new_quizzes.length ++
              " new quizzes available on Quiz Master:\n\n" ++ quiz_list ++
              "\n\nLogin to attempt them!"
          let ok :=
            send_sms_notification env.twilio env.twilioSend
              (p.phone_number.getD "") body
          ([DailyDispatch.sms (p.phone_number.getD "") body ok],
            if ok then 1 else 0)
        else ([], 0)

/-- The loop body for one inactive user (`tasks.py` lines 390–483): skip
when every upcoming quiz was already attempted; resolve preferences; skip
when the current hour differs from the resolved reminder hour; otherwise
dispatch. -/
def processUser (env : JobEnv) (u : User) : List DailyDispatch × Nat :=
  let new_quizzes := newQuizzesFor env u
  if new_quizzes.isEmpty then ([], 0)
  else
    let pref := env.db.prefs.find? (fun p => p.user_id == u.id)
    let r := resolvePref pref
    if (env.now.hour : Int) ≠ r.2 then ([], 0)
    else dispatchUser env u pref r.1 new_quizzes

/-- Result of one daily-reminder run: the dispatches in order, the final
`reminders_sent` counter, and the returned summary string. -/
structure DailyResult where
  dispatches : List DailyDispatch
  count : Nat
  summary : String
deriving DecidableEq, Repr

/-- Task `send_daily_reminders` (`tasks.py` lines 361–489): process every
inactive user in order, accumulate dispatches and the sent counter, and
return the summary string built from the counter. -/
def send_daily_reminders (env : JobEnv) : DailyResult :=
  let step :=
    (inactiveUsers env).foldl
      (fun acc u =>
        let r := processUser env u
        (acc.1 ++ r.1, acc.2 + r.2))
      (([] : List DailyDispatch), 0)
  { dispatches := step.1
    count := step.2
    summary := "Daily reminders sent to " ++ toString step.2 ++ " users" }

/-! ## Monthly report job (`tasks.py` lines 491–596) -/

/-- One per-attempt detail line of the monthly report
(`tasks.py` lines 540–548). -/
structure AttemptDetail where
  quiz_title : String
  subject : String
  chapter : String
  score : Int
  total : Int
  percentage : ℚ
  date : String
deriving DecidableEq, Repr

/-- One rendered monthly-report email (`tasks.py` lines 571–589): recipient
address, month label, aggregates, detail lines and the quiz-title-keyed
ranking mapping in insertion order. -/
structure MonthlyEmail where
  recipient : String
  subject_line : String
  month : String
  total_attempts : Nat
  avg_percentage : ℚ
  attempts : List AttemptDetail
  rankings : List (String × Nat × Nat)
deriving DecidableEq, Repr

/-- Python dict insertion: update the value in place when the key exists,
else append the pair. -/
def dictInsert {α : Type} (l : List (String × α)) (k : String) (v : α) :
    List (String × α) :=
  if l.any (fun kv => kv.1 == k) then
    l.map (fun kv => if kv.1 == k then (k, v) else kv)
  else l ++ [(k, v)]

/-- The per-attempt detail construction (`tasks.py` lines 531–548). -/
def monthlyDetail (db : Db) (attempt : Score) :
    Except String AttemptDetail := do
  let quiz ← getQuiz db attempt.quiz_id
  let chapter ← getChapter db quiz.chapter_id
  let subject ← getSubject db chapter.subject_id
  Except.ok
    { quiz_title := quiz.title
      subject := subject.name
      chapter := chapter.name
      score := attempt.score
      total := attempt.total_questions
      percentage := monthlyAttemptPercentage attempt
      date := formatDateTimeShort attempt.attempt_date }

/-- The rankings construction (`tasks.py` lines 550–569): for each attempt,
the live rank among all attempts on its quiz and the quiz's total attempt
count, keyed by quiz title. -/
def monthlyRankings (db : Db) (attempts : List Score) :
    Except String (List (String × Nat × Nat)) :=
  attempts.foldlM
    (fun acc attempt => do
      let rank := rank_for_attempt db.scores attempt.quiz_id attempt.score
      let total := totalAttemptsForQuiz db.scores attempt.quiz_id
      let quiz ← getQuiz db attempt.quiz_id
      Except.ok (dictInsert acc quiz.title (rank, total)))
    []

/-- The loop body of the monthly report for one user
(`tasks.py` lines 514–589): collect the user's prior-month attempts, skip
the user when there are none, otherwise aggregate, build details and
rankings and render the email.  The produced email is tagged with the user
id. -/
def monthlyPerUser (db : Db) (today : Date) (u : User) :
    Except String (Option (Nat × MonthlyEmail)) := do
  let attempts := db.scores.filter (monthlySelected today u.id)
  if attempts.isEmpty then Except.ok none
  else do
    let details ← attempts.mapM (monthlyDetail db)
    let rankings ← monthlyRankings db attempts
    let last_month := (monthBounds today).1
    Except.ok (some (u.id,
      { recipient := u.username
        subject_line :=
          "Quiz Master - Monthly Activity Report (" ++
            formatMonthYear last_month ++ ")"
        month := formatMonthYear last_month
        total_attempts := attempts.length
        avg_percentage := monthlyAvgPercentage attempts
        attempts := details
        rankings := rankings }))

/-- Result of one monthly-report run: the emails sent in order (tagged with
the user id), the count reported by the summary, and the summary string. -/
structure MonthlyResult where
  emails : List (Nat × MonthlyEmail)
  count : Nat
  summary : String
deriving DecidableEq, Repr

/-- Task `send_monthly_reports` (`tasks.py` lines 491–596): iterate over all
role-`user` users, send a report to each user with prior-month activity, and
return a summary counting every user considered (`len(users)`), not the
users actually emailed.  Any per-user aggregation failure aborts the whole
run. -/
def send_monthly_reports (db : Db) (today : Date) :
    Except String MonthlyResult := do
  let users := db.users.filter (fun u => u.role == "user")
  let results ← users.mapM (monthlyPerUser db today)
  Except.ok
    { emails := results.filterMap id
      count := users.length
      summary :=
        "Monthly reports sent to " ++ toString users.length ++ " users" }

/-! ## Auxiliary definitions for the verification -/

/-- Strict date-then-id lexicographic order on quizzes: the deterministic
ordering the upcoming-quiz query guarantees. -/
def quizLexLt (a b : Quiz) : Prop :=
  dateBlt a.date_of_quiz b.date_of_quiz = true ∨
    (a.date_of_quiz = b.date_of_quiz ∧ a.id < b.id)

/-- Erase the two opt-in flags of a preference row (normalizing them to
`true`): two rows with the same erasure differ at most in the flags. -/
def scrubPref (p : UserPreference) : UserPreference :=
  { p with receive_daily_reminders := true, receive_monthly_reports := true }

/-- Replace the preference table of a job environment. -/
def withPrefs (env : JobEnv) (prefs : List UserPreference) : JobEnv :=
  { env with db := { env.db with prefs := prefs } }

/-- A fixed attempt timestamp for concrete instances. -/
def tstamp : DateTime :=
  ⟨⟨2024, 2, 5⟩, 10, 30, 0⟩

/-- Three attempts on quiz 1 scoring 10, 8, 8 out of 10. -/
def exampleQuizScores : List Score :=
  [⟨1, 1, 1, 10, 10, tstamp, none⟩,
   ⟨2, 1, 2, 8, 10, tstamp, none⟩,
   ⟨3, 1, 3, 8, 10, tstamp, none⟩]

/-- A small concrete database for witness instances: one regular user with
no attempts, no preference rows, two active upcoming quizzes sharing a date. -/
def dbW : Db :=
  { users := [⟨1, "u1@example.com", "User One", "user", none⟩]
    subjects := [⟨1, "Maths"⟩]
    chapters := [⟨1, 1, "Algebra"⟩]
    quizzes :=
      [⟨1, 1, "Quiz A", ⟨2024, 3, 10⟩, true⟩,
       ⟨2, 1, "Quiz B", ⟨2024, 3, 10⟩, true⟩]
    scores := []
    prefs := [] }

/-- A concrete job environment over `dbW`, clock at 18:00 on 2024-03-05. -/
def envW : JobEnv :=
  { db := dbW
    today := ⟨2024, 3, 5⟩
    now := ⟨⟨2024, 3, 5⟩, 18, 0, 0⟩
    recentDate := ⟨⟨2024, 3, 2⟩, 18, 0, 0⟩
    post := fun _ _ => HttpOutcome.resp 200
    twilio := ⟨none, none, none⟩
    twilioSend := fun _ _ => Except.ok ()
    appUrl := "https://quizmaster.com"
    }

/-- Variant of `envW` with the preference table replaced: one row for user 1 with a
midnight reminder hour and empty notification type. -/
def prefMidnight : UserPreference :=
  ⟨1, 1, some "", some 0, none, none, true, true⟩

/-- Preference row for user 1 opted in to both notification kinds. -/
def prefOptIn : UserPreference :=
  ⟨1, 1, some "email", some 18, none, none, true, true⟩

/-- The same row opted out of both notification kinds. -/
def prefOptOut : UserPreference :=
  ⟨1, 1, some "email", some 18, none, none, false, false⟩
theorem dateBle_iff (a b : Date) :
    dateBle a b = true ↔
      (a.year < b.year ∨
        (a.year = b.year ∧
          (a.month < b.month ∨ (a.month = b.month ∧ a.day ≤ b.day)))) := by
  simp [dateBle, Bool.or_eq_true, Bool.and_eq_true, decide_eq_true_eq]

theorem dateBlt_iff (a b : Date) :
    dateBlt a b = true ↔
      (a.year < b.year ∨
        (a.year = b.year ∧
          (a.month < b.month ∨ (a.month = b.month ∧ a.day < b.day)))) := by
  simp [dateBlt, Bool.or_eq_true, Bool.and_eq_true, decide_eq_true_eq]

theorem dateBle_total (a b : Date) (h : ¬ dateBle a b = true) :
    dateBlt b a = true := by
  rw [dateBle_iff] at h
  rw [dateBlt_iff]
  rcases a with ⟨ay, am, ad⟩
  rcases b with ⟨by', bm, bd⟩
  simp only at h ⊢
  omega

theorem dateBle_trans {a b c : Date} (h1 : dateBle a b = true)
    (h2 : dateBle b c = true) : dateBle a c = true := by
  rw [dateBle_iff] at h1 h2
  rw [dateBle_iff]
  rcases a with ⟨ay, am, ad⟩
  rcases b with ⟨by', bm, bd⟩
  rcases c with ⟨cy, cm, cd⟩
  simp only at h1 h2 ⊢
  omega

theorem dateBlt_le {a b : Date} (h : dateBlt a b = true) :
    dateBle a b = true := by
  rw [dateBlt_iff] at h
  rw [dateBle_iff]
  rcases a with ⟨ay, am, ad⟩
  rcases b with ⟨by', bm, bd⟩
  simp only at h ⊢
  omega
theorem dateBle_refl (a : Date) : dateBle a a = true := by
  rw [dateBle_iff]
  omega

theorem dateBle_cases {a b : Date} (h : dateBle a b = true) :
    dateBlt a b = true ∨ a = b := by
  rcases a with ⟨ay, am, ad⟩
  rcases b with ⟨by', bm, bd⟩
  rw [dateBle_iff] at h
  rw [dateBlt_iff]
  simp only [Date.mk.injEq]
  simp only at h
  omega

/-! ## C1: rank is one plus the strictly-greater count, ties share rank -/

/-- C1: for every quiz and every attempt score, the computed rank equals
1 plus the number of Score rows of that quiz with strictly greater score
(Python's trailing `or 1` never alters the value), so equal scores always
receive equal ranks; on the three-attempt 10/8/8 example for quiz 1, the
attempt scoring 10 has rank 1 and each attempt scoring 8 has rank 2. -/
theorem rank_for_attempt_spec :
    (∀ (scores : List Score) (quiz_id : Nat) (score : Int),
      rank_for_attempt scores quiz_id score =
        1 + (scores.filter
          (fun s => s.quiz_id == quiz_id && score < s.score)).length) ∧
    (∀ (scores : List Score) (quiz_id : Nat) (a b : Score),
      a.score = b.score →
        rank_for_attempt scores quiz_id a.score =
          rank_for_attempt scores quiz_id b.score) ∧
    rank_for_attempt exampleQuizScores 1 10 = 1 ∧
    rank_for_attempt exampleQuizScores 1 8 = 2 := by
  refine ⟨?_, ?_, by decide, by decide⟩
  · intro scores quiz_id score
    unfold rank_for_attempt
    rw [if_neg (Nat.succ_ne_zero _)]
    omega
  · intro scores quiz_id a b h
    rw [h]

/-! ## C3: the guarded percentage at every site -/

theorem guardedPercentage_eq (score tq : Int) (h : 0 ≤ tq) :
    (if tq > 0 then (score : ℚ) / (tq : ℚ) * 100 else 0) =
      specPercentage score tq := by
  simp only [specPercentage]
  split_ifs with h1 h2 h3
  · exact absurd h2 (by omega)
  · rfl
  · rfl
  · exact absurd (by omega : tq = 0) h3

/-- C3: at every site — the `Score.to_dict` serialization, the per-attempt
export row, the monthly per-attempt percentage and the monthly aggregate —
the computed percentage equals `score / total_questions * 100` when the
(non-negative count) denominator is positive and `0` when it is zero, so the
guarded branch never divides by zero; no upper clamp is applied, as the
concrete over-100 instance shows. -/
theorem percentage_guard_spec :
    (∀ s : Score, 0 ≤ s.total_questions →
      (Score.to_dict s).percentage = specPercentage s.score s.total_questions ∧
      exportAttemptPercentage s = specPercentage s.score s.total_questions ∧
      monthlyAttemptPercentage s =
        specPercentage s.score s.total_questions) ∧
    (∀ attempts : List Score, (∀ s ∈ attempts, 0 ≤ s.total_questions) →
      monthlyAvgPercentage attempts =
        specPercentage ((attempts.map (·.score)).sum)
          ((attempts.map (·.total_questions)).sum)) ∧
    (∀ (score total_questions : Int), total_questions = 0 →
      specPercentage score total_questions = 0) ∧
    specPercentage 15 10 = 150 := by
  refine ⟨?_, ?_, ?_, by norm_num [specPercentage]⟩
  · intro s h
    refine ⟨?_, ?_, ?_⟩ <;>
      simp only [Score.to_dict, exportAttemptPercentage,
        monthlyAttemptPercentage] <;>
      exact guardedPercentage_eq _ _ h
  · intro attempts h
    have hsum : 0 ≤ (attempts.map (·.total_questions)).sum := by
      apply List.sum_nonneg
      intro x hx
      obtain ⟨s, hs, rfl⟩ := List.mem_map.mp hx
      exact h s hs
    simp only [monthlyAvgPercentage]
    exact guardedPercentage_eq _ _ hsum
  · intro score total_questions h
    simp [specPercentage, h]

/-- Witness for C3: evaluated on the concrete 8-out-of-10 attempt, the
serialization percentage is 80. -/
theorem percentage_guard_spec_witness :
    (Score.to_dict ⟨2, 1, 2, 8, 10, tstamp, none⟩).percentage =
      specPercentage 8 10 :=
  (percentage_guard_spec.1 ⟨2, 1, 2, 8, 10, tstamp, none⟩ (by decide)).1

/-! ## C4: the monthly window is exactly the previous calendar month -/

/-- C4: for every current date with a valid month and every attempt whose
timestamp carries a valid month and day, the monthly-report filter selects
the attempt exactly when it belongs to the user and its calendar month is
the one immediately preceding the current month (equal month index on the
linear month time line); in January the window start is December 1st of the
previous year. -/
theorem monthly_window_spec (today : Date) (uid : Nat) (s : Score)
    (hm1 : 1 ≤ today.month) (hm2 : today.month ≤ 12)
    (ha1 : 1 ≤ s.attempt_date.date.month)
    (ha2 : s.attempt_date.date.month ≤ 12)
    (ha3 : 1 ≤ s.attempt_date.date.day) :
    (monthlySelected today uid s = true ↔
      (s.user_id = uid ∧
        monthIndex s.attempt_date.date.year s.attempt_date.date.month =
          monthIndex today.year today.month - 1)) ∧
    (today.month = 1 → (monthBounds today).1 = ⟨today.year - 1, 12, 1⟩) := by
  constructor
  · rcases today with ⟨ty, tm, td⟩
    rcases s with ⟨sid, sqid, suid, ssc, stq, ⟨⟨ay, am, ad⟩, hh, mm, ss⟩, tt⟩
    simp only at ha1 ha2 ha3 hm1 hm2
    unfold monthlySelected monthBounds dateLeDt dtLtDate monthIndex
    by_cases h1 : tm = 1
    · subst h1
      simp only [Bool.and_eq_true, beq_iff_eq, dateBle_iff, dateBlt_iff,
        eq_self_iff_true, if_true]
      constructor
      · rintro ⟨⟨hu, hle⟩, hlt⟩
        exact ⟨hu, by omega⟩
      · rintro ⟨hu, hidx⟩
        exact ⟨⟨hu, by omega⟩, by omega⟩
    · simp only [if_neg h1]
      simp only [Bool.and_eq_true, beq_iff_eq, dateBle_iff, dateBlt_iff]
      constructor
      · rintro ⟨⟨hu, hle⟩, hlt⟩
        exact ⟨hu, by omega⟩
      · rintro ⟨hu, hidx⟩
        exact ⟨⟨hu, by omega⟩, by omega⟩
  · intro h
    simp [monthBounds, h]

/-- Witness for C4: a run on 2025-01-03 selects the attempt of user 7 dated
2024-12-15 (December of the previous year). -/
theorem monthly_window_spec_witness :
    monthlySelected ⟨2025, 1, 3⟩ 7
      ⟨9, 4, 7, 5, 10, ⟨⟨2024, 12, 15⟩, 9, 0, 0⟩, none⟩ = true :=
  ((monthly_window_spec ⟨2025, 1, 3⟩ 7
      ⟨9, 4, 7, 5, 10, ⟨⟨2024, 12, 15⟩, 9, 0, 0⟩, none⟩
      (by decide) (by decide) (by decide) (by decide) (by decide)).1).mpr
    (by constructor <;> decide)

/-! ## C5: webhook channel semantics -/

/-- C5: the webhook channel returns `false` and issues no request when the
destination URL is empty; on a non-empty URL it posts exactly one request
and returns `true` if and only if the response status is exactly 200, and a
transport exception is absorbed into a `false` return.  The function is
total, so it never raises. -/
theorem send_gchat_webhook_spec
    (post : String → WebhookPayload → HttpOutcome) (url message : String)
    (title : Option String) (sections : Option (List GSection)) :
    (url = "" → send_gchat_webhook post url message title sections =
      (false, [])) ∧
    (url ≠ "" →
      (send_gchat_webhook post url message title sections).2 =
        [(url, gchatPayload message title sections)] ∧
      (∀ status,
        post url (gchatPayload message title sections) =
          HttpOutcome.resp status →
        ((send_gchat_webhook post url message title sections).1 = true ↔
          status = 200)) ∧
      (∀ e,
        post url (gchatPayload message title sections) =
          HttpOutcome.exn e →
        (send_gchat_webhook post url message title sections).1 = false)) := by
  constructor
  · intro h
    simp [send_gchat_webhook, h]
  · intro h
    have hne : (url == "") = false := by
      simp [h]
    refine ⟨?_, ?_, ?_⟩
    · unfold send_gchat_webhook
      rw [hne]
      simp only [Bool.false_eq_true, if_false]
      cases post url (gchatPayload message title sections) <;> rfl
    · intro status hpost
      unfold send_gchat_webhook
      rw [hne]
      simp only [Bool.false_eq_true, if_false, hpost]
      simp [beq_iff_eq]
    · intro e hpost
      unfold send_gchat_webhook
      rw [hne]
      simp only [Bool.false_eq_true, if_false, hpost]

/-- Witness for C5: with a transport that answers 200, the empty URL yields
`(false, [])` without a request, and the non-empty URL yields success. -/
theorem send_gchat_webhook_spec_witness :
    send_gchat_webhook (fun _ _ => HttpOutcome.resp 200) "" "hi" none none =
      (false, []) ∧
    (send_gchat_webhook (fun _ _ => HttpOutcome.resp 200)
      "https://chat.example" "hi" none none).1 = true :=
  ⟨(send_gchat_webhook_spec (fun _ _ => HttpOutcome.resp 200) "" "hi"
      none none).1 rfl,
    ((send_gchat_webhook_spec (fun _ _ => HttpOutcome.resp 200)
        "https://chat.example" "hi" none none).2 (by decide)).2.1 200
      rfl |>.mpr rfl⟩

/-! ## C7: export for a missing user fails with the id and writes nothing -/

theorem exceptMapM_ok {α β : Type} {f : α → Except String β} :
    ∀ {l : List α} {ys : List β}, l.mapM f = Except.ok ys →
      ∀ x ∈ l, ∃ y, f x = Except.ok y := by
  intro l
  induction l with
  | nil => intro ys _ x hx; cases hx
  | cons a t ih =>
      intro ys hok x hx
      rw [List.mapM_cons] at hok
      cases hfa : f a with
      | error e =>
          rw [hfa] at hok
          cases hok
      | ok b =>
          rw [hfa] at hok
          cases hft : t.mapM f with
          | error e =>
              rw [hft] at hok
              cases hok
          | ok bs =>
              rcases List.mem_cons.mp hx with rfl | hxt
              · exact ⟨b, hfa⟩
              · exact ih hft x hxt

/-- C7: when no User row matches the requested id, the export computes the
`ValueError` message naming that id, the task's terminal state is `FAILURE`
carrying that message, and no artifact is produced (the `ok` artifact case
is reached only after every attempt row serialized successfully). -/
theorem export_missing_user_spec (db : Db) (nowStamp : String)
    (user_id : Nat) :
    (db.users.find? (fun u => u.id == user_id) = none →
      export_user_attempts_csv db nowStamp user_id =
        Except.error ("User with ID " ++ toString user_id ++ " not found") ∧
      exportUserAttemptsTask db nowStamp user_id =
        TaskState.failure
          ("User with ID " ++ toString user_id ++ " not found")) ∧
    (∀ a, export_user_attempts_csv db nowStamp user_id = Except.ok a →
      ∀ s ∈ db.scores.filter (fun s => s.user_id == user_id),
        ∃ row, serializeAttemptRow db s = Except.ok row) := by
  constructor
  · intro h
    have he : export_user_attempts_csv db nowStamp user_id =
        Except.error ("User with ID " ++ toString user_id ++ " not found") := by
      unfold export_user_attempts_csv
      rw [h]
    exact ⟨he, by unfold exportUserAttemptsTask; rw [he]⟩
  · intro a hok s hs
    unfold export_user_attempts_csv at hok
    cases hfind : db.users.find? (fun u => u.id == user_id) with
    | none =>
        rw [hfind] at hok
        cases hok
    | some u =>
        rw [hfind] at hok
        dsimp only at hok
        cases hrows : (db.scores.filter
            (fun s => s.user_id == user_id)).mapM (serializeAttemptRow db) with
        | error e =>
            rw [hrows] at hok
            simp [Bind.bind, Except.bind] at hok
        | ok rows =>
            exact exceptMapM_ok hrows s hs

/-- Witness for C7: exporting for the absent user id 99 of the concrete
database fails with the message naming 99. -/
theorem export_missing_user_spec_witness :
    export_user_attempts_csv dbW "20240305_180000" 99 =
      Except.error "User with ID 99 not found" :=
  ((export_missing_user_spec dbW "20240305_180000" 99).1 (by decide)).1

/-! ## C8: monthly report skips inactive users yet counts all considered -/

theorem exceptMapM_mem {α β : Type} {f : α → Except String β} :
    ∀ {l : List α} {ys : List β}, l.mapM f = Except.ok ys →
      ∀ y ∈ ys, ∃ x ∈ l, f x = Except.ok y := by
  intro l
  induction l with
  | nil =>
      intro ys hok y hy
      rw [List.mapM_nil] at hok
      cases hok
      cases hy
  | cons a t ih =>
      intro ys hok y hy
      rw [List.mapM_cons] at hok
      cases hfa : f a with
      | error e =>
          rw [hfa] at hok
          cases hok
      | ok b =>
          rw [hfa] at hok
          cases hft : t.mapM f with
          | error e =>
              rw [hft] at hok
              cases hok
          | ok bs =>
              rw [hft] at hok
              simp only [bind, Except.bind, pure, Except.pure] at hok
              cases hok
              rcases List.mem_cons.mp hy with rfl | hyt
              · exact ⟨a, List.mem_cons_self a t, hfa⟩
              · obtain ⟨x, hx, hfx⟩ := ih hft y hyt
                exact ⟨x, List.mem_cons_of_mem a hx, hfx⟩

theorem monthlyPerUser_some {db : Db} {today : Date} {u : User}
    {z : Nat × MonthlyEmail}
    (h : monthlyPerUser db today u = Except.ok (some z)) :
    z.1 = u.id ∧
      (db.scores.filter (monthlySelected today u.id)).isEmpty = false := by
  simp only [monthlyPerUser] at h
  cases hemp : (db.scores.filter (monthlySelected today u.id)).isEmpty with
  | true =>
      rw [hemp] at h
      simp at h
  | false =>
      rw [hemp] at h
      simp only [Bool.false_eq_true, if_false] at h
      refine ⟨?_, rfl⟩
      cases hd : (db.scores.filter (monthlySelected today u.id)).mapM
          (monthlyDetail db) with
      | error e =>
          rw [hd] at h
          simp [Bind.bind, Except.bind] at h
      | ok details =>
          rw [hd] at h
          simp only [bind, Except.bind] at h
          cases hr : monthlyRankings db
              (db.scores.filter (monthlySelected today u.id)) with
          | error e =>
              rw [hr] at h
              simp at h
          | ok rankings =>
              rw [hr] at h
              simp only [pure, Except.pure, Except.ok.injEq,
                Option.some.injEq] at h
              rw [← h]

/-- C8: the per-user monthly step produces no email for a user with zero
attempts in the window, and a successful run's returned count is the number
of all role-`user` users considered — every email of the run belongs to a
considered user with at least one attempt in the window, so skipped users
are never emailed yet are still counted. -/
theorem monthly_report_count_spec :
    (∀ (db : Db) (today : Date) (u : User),
      (db.scores.filter (monthlySelected today u.id)).isEmpty = true →
      monthlyPerUser db today u = Except.ok none) ∧
    (∀ (db : Db) (today : Date) (r : MonthlyResult),
      send_monthly_reports db today = Except.ok r →
      r.count = (db.users.filter (fun u => u.role == "user")).length ∧
      r.summary = "Monthly reports sent to " ++ toString r.count ++
        " users" ∧
      ∀ p ∈ r.emails,
        ∃ u ∈ db.users.filter (fun u => u.role == "user"),
          p.1 = u.id ∧
            (db.scores.filter (monthlySelected today u.id)).isEmpty =
              false) := by
  constructor
  · intro db today u h
    simp only [monthlyPerUser]
    rw [h]
    rfl
  · intro db today r hok
    simp only [send_monthly_reports] at hok
    cases hres : (db.users.filter (fun u => u.role == "user")).mapM
        (monthlyPerUser db today) with
    | error e =>
        rw [hres] at hok
        simp [Bind.bind, Except.bind] at hok
    | ok results =>
        rw [hres] at hok
        simp only [bind, Except.bind, Except.ok.injEq] at hok
        subst hok
        refine ⟨rfl, rfl, ?_⟩
        intro p hp
        have hsome : some p ∈ results := by
          obtain ⟨o, ho, heq⟩ := List.mem_filterMap.mp hp
          simp only [id] at heq
          rw [heq] at ho
          exact ho
        obtain ⟨u, hu, hfu⟩ := exceptMapM_mem hres (some p) hsome
        obtain ⟨hid, hne⟩ := monthlyPerUser_some hfu
        exact ⟨u, hu, hid, hne⟩

/-- Witness for C8: on the concrete database, whose sole regular user has no
attempts, the run returns no emails and counts one considered user. -/
theorem monthly_report_count_spec_witness :
    send_monthly_reports dbW ⟨2024, 3, 5⟩ =
      Except.ok ⟨[], 1, "Monthly reports sent to 1 users"⟩ ∧
    (⟨[], 1, "Monthly reports sent to 1 users"⟩ : MonthlyResult).count =
      (dbW.users.filter (fun u => u.role == "user")).length := by
  refine ⟨rfl, ?_⟩
  exact (monthly_report_count_spec.2 dbW ⟨2024, 3, 5⟩
    ⟨[], 1, "Monthly reports sent to 1 users"⟩ rfl).1

/-! ## C2: defaults and the hour gate of the daily reminder job -/

theorem foldl_dispatch_eq {α : Type} (f : α → List DailyDispatch × Nat) :
    ∀ (l : List α) (acc : List DailyDispatch) (n : Nat),
      l.foldl (fun a u => (a.1 ++ (f u).1, a.2 + (f u).2)) (acc, n) =
        (acc ++ (l.map (fun u => (f u).1)).flatten,
          n + (l.map (fun u => (f u).2)).sum) := by
  intro l
  induction l with
  | nil =>
      intro acc n
      simp
  | cons a t ih =>
      intro acc n
      simp only [List.foldl_cons, List.map_cons, List.flatten_cons,
        List.sum_cons]
      rw [ih]
      simp [List.append_assoc, Nat.add_assoc]

/-- C2: for an inactive user with some new quizzes and no `UserPreference`
row, the daily job resolves the channel to `email` and the reminder hour to
18; the user is skipped — no dispatch, nothing counted — exactly when the
current hour is not the resolved hour, and at hour 18 the email dispatch is
performed and counted.  In general every user is skipped whenever the
current hour differs from their resolved hour, and the job's output is the
concatenation over inactive users of the per-user outputs. -/
theorem daily_default_pref_spec (env : JobEnv) (u : User)
    (hp : env.db.prefs.find? (fun p => p.user_id == u.id) = none) :
    resolvePref (env.db.prefs.find? (fun p => p.user_id == u.id)) =
      ("email", 18) ∧
    (¬ newQuizzesFor env u = [] → ¬ env.now.hour = 18 →
      processUser env u = ([], 0)) ∧
    (¬ newQuizzesFor env u = [] → env.now.hour = 18 →
      processUser env u =
        ([DailyDispatch.email u.username (newQuizzesFor env u) env.today],
          1)) ∧
    (∀ (env2 : JobEnv) (v : User),
      ¬ (env2.now.hour : Int) =
        (resolvePref
          (env2.db.prefs.find? (fun p => p.user_id == v.id))).2 →
      processUser env2 v = ([], 0)) ∧
    (∀ env3 : JobEnv,
      (send_daily_reminders env3).dispatches =
        ((inactiveUsers env3).map (fun v => (processUser env3 v).1)).flatten ∧
      (send_daily_reminders env3).count =
        ((inactiveUsers env3).map (fun v => (processUser env3 v).2)).sum) := by
  refine ⟨by rw [hp]; rfl, ?_, ?_, ?_, ?_⟩
  · intro hne h18
    have hef : (newQuizzesFor env u).isEmpty = false := by
      simp [List.isEmpty_iff, hne]
    have hcast : ¬ ((env.now.hour : Int) = 18) := by
      intro hc
      exact h18 (by omega)
    simp only [processUser]
    rw [hef, hp]
    simp only [Bool.false_eq_true, if_false, resolvePref]
    rw [if_pos hcast]
  · intro hne h18
    have hef : (newQuizzesFor env u).isEmpty = false := by
      simp [List.isEmpty_iff, hne]
    have hcast : (env.now.hour : Int) = 18 := by omega
    simp only [processUser]
    rw [hef, hp]
    simp only [Bool.false_eq_true, if_false, resolvePref]
    rw [if_neg (by simpa using hcast)]
    rfl
  · intro env2 v hne
    by_cases hq : newQuizzesFor env2 v = []
    · simp only [processUser]
      rw [hq]
      rfl
    · have hef : (newQuizzesFor env2 v).isEmpty = false := by
        simp [List.isEmpty_iff, hq]
      simp only [processUser]
      rw [hef]
      simp only [Bool.false_eq_true, if_false]
      rw [if_pos hne]
  · intro env3
    unfold send_daily_reminders
    rw [foldl_dispatch_eq (processUser env3) (inactiveUsers env3) [] 0]
    exact ⟨by simp, by simp⟩

/-- Witness for C2: in the concrete environment (clock at hour 18, user 1
has no preference row and two unattempted quizzes) the run dispatches the
email and counts it. -/
theorem daily_default_pref_spec_witness :
    processUser envW ⟨1, "u1@example.com", "User One", "user", none⟩ =
      ([DailyDispatch.email "u1@example.com"
        (newQuizzesFor envW ⟨1, "u1@example.com", "User One", "user", none⟩)
        envW.today], 1) :=
  (daily_default_pref_spec envW
      ⟨1, "u1@example.com", "User One", "user", none⟩ rfl).2.2.1
    (by decide) rfl

/-! ## C10: a stored midnight hour resolves to 18 -/

/-- C10: for a user whose preference row stores `reminder_time = 0` — a
valid hour, midnight — the resolution maps it to 18 (Python's `or 18` treats
0 as unset), so at hour 0 the user is always skipped, while at hour 18 the
hour gate passes and the user reaches channel dispatch; likewise an
empty-string `notification_type` resolves to the email channel. -/
theorem midnight_pref_spec (env : JobEnv) (u : User) (p : UserPreference)
    (hp : env.db.prefs.find? (fun q => q.user_id == u.id) = some p)
    (ht : p.reminder_time = some 0) :
    (resolvePref (some p)).2 = 18 ∧
    (env.now.hour = 0 → processUser env u = ([], 0)) ∧
    (p.notification_type = some "" → (resolvePref (some p)).1 = "email") ∧
    (env.now.hour = 18 → ¬ newQuizzesFor env u = [] →
      processUser env u =
        dispatchUser env u (some p) (resolvePref (some p)).1
          (newQuizzesFor env u)) := by
  have h18 : (resolvePref (some p)).2 = 18 := by
    simp [resolvePref, ht]
  refine ⟨h18, ?_, ?_, ?_⟩
  · intro h0
    by_cases hq : newQuizzesFor env u = []
    · simp only [processUser]
      rw [hq]
      rfl
    · have hef : (newQuizzesFor env u).isEmpty = false := by
        simp [List.isEmpty_iff, hq]
      have hcast : ¬ ((env.now.hour : Int) =
          (resolvePref (env.db.prefs.find?
            (fun q => q.user_id == u.id))).2) := by
        rw [hp, h18, h0]
        omega
      simp only [processUser]
      rw [hef]
      simp only [Bool.false_eq_true, if_false]
      rw [if_pos hcast]
  · intro hn
    simp [resolvePref, hn]
  · intro h18h hne
    have hef : (newQuizzesFor env u).isEmpty = false := by
      simp [List.isEmpty_iff, hne]
    have hcast : (env.now.hour : Int) =
        (resolvePref (env.db.prefs.find?
          (fun q => q.user_id == u.id))).2 := by
      rw [hp, h18, h18h]
      rfl
    simp only [processUser]
    rw [hef]
    simp only [Bool.false_eq_true, if_false]
    rw [if_neg (by simpa using hcast), hp]

/-- Witness for C10: in the concrete environment with user 1 holding a
midnight preference row, at hour 0 the run skips the user. -/
theorem midnight_pref_spec_witness :
    (resolvePref (some prefMidnight)).2 = 18 ∧
    processUser
      { envW with
        db := { dbW with prefs := [prefMidnight] }
        now := ⟨⟨2024, 3, 5⟩, 0, 0, 0⟩ }
      ⟨1, "u1@example.com", "User One", "user", none⟩ = ([], 0) := by
  refine ⟨?_, ?_⟩
  · exact (midnight_pref_spec
      { envW with
        db := { dbW with prefs := [prefMidnight] }
        now := ⟨⟨2024, 3, 5⟩, 0, 0, 0⟩ }
      ⟨1, "u1@example.com", "User One", "user", none⟩ prefMidnight
      rfl rfl).1
  · exact (midnight_pref_spec
      { envW with
        db := { dbW with prefs := [prefMidnight] }
        now := ⟨⟨2024, 3, 5⟩, 0, 0, 0⟩ }
      ⟨1, "u1@example.com", "User One", "user", none⟩ prefMidnight
      rfl rfl).2.1 rfl

/-! ## C9: the opt-in flags are never read by either scheduler -/

theorem withPrefs_prefs (env : JobEnv) (l : List UserPreference) :
    (withPrefs env l).db.prefs = l := rfl

theorem withPrefs_now (env : JobEnv) (l : List UserPreference) :
    (withPrefs env l).now = env.now := rfl

theorem newQuizzesFor_withPrefs (env : JobEnv) (l : List UserPreference)
    (u : User) : newQuizzesFor (withPrefs env l) u = newQuizzesFor env u :=
  rfl

theorem inactiveUsers_withPrefs (env : JobEnv) (l : List UserPreference) :
    inactiveUsers (withPrefs env l) = inactiveUsers env := rfl

theorem dispatchUser_withPrefs (env : JobEnv) (l : List UserPreference)
    (u : User) (pref : Option UserPreference) (nt : String)
    (nq : List Quiz) :
    dispatchUser (withPrefs env l) u pref nt nq =
      dispatchUser env u pref nt nq := rfl

theorem scrubPref_fields {p q : UserPreference}
    (h : scrubPref p = scrubPref q) :
    p.user_id = q.user_id ∧ p.notification_type = q.notification_type ∧
      p.reminder_time = q.reminder_time ∧
      p.webhook_url = q.webhook_url ∧ p.phone_number = q.phone_number := by
  cases p
  cases q
  simp only [scrubPref, UserPreference.mk.injEq, and_true] at h
  exact ⟨h.2.1, h.2.2.1, h.2.2.2.1, h.2.2.2.2.1, h.2.2.2.2.2⟩

theorem find?_scrub_congr (uid : Nat) :
    ∀ (l1 l2 : List UserPreference),
      l1.map scrubPref = l2.map scrubPref →
      Option.map scrubPref (l1.find? (fun p => p.user_id == uid)) =
        Option.map scrubPref (l2.find? (fun p => p.user_id == uid)) := by
  intro l1
  induction l1 with
  | nil =>
      intro l2 h
      cases l2 with
      | nil => rfl
      | cons b s => simp at h
  | cons a t ih =>
      intro l2 h
      cases l2 with
      | nil => simp at h
      | cons b s =>
          simp only [List.map_cons, List.cons.injEq] at h
          obtain ⟨hab, hts⟩ := h
          have hid : a.user_id = b.user_id := (scrubPref_fields hab).1
          simp only [List.find?]
          have hpa : (a.user_id == uid) = (b.user_id == uid) := by rw [hid]
          rw [hpa]
          cases hbu : (b.user_id == uid) with
          | true => simp [hab]
          | false => exact ih s hts

theorem dispatchUser_pref_congr (env : JobEnv) (u : User)
    {p q : UserPreference} (hw : p.webhook_url = q.webhook_url)
    (hph : p.phone_number = q.phone_number) (nt : String)
    (nq : List Quiz) :
    dispatchUser env u (some p) nt nq = dispatchUser env u (some q) nt nq := by
  simp only [dispatchUser, hw, hph]

theorem processUser_scrub_congr (env : JobEnv)
    (l1 l2 : List UserPreference)
    (h : l1.map scrubPref = l2.map scrubPref) (u : User) :
    processUser (withPrefs env l1) u = processUser (withPrefs env l2) u := by
  have hfind := find?_scrub_congr u.id l1 l2 h
  simp only [processUser, newQuizzesFor_withPrefs, withPrefs_now,
    withPrefs_prefs, dispatchUser_withPrefs]
  cases h1 : l1.find? (fun p => p.user_id == u.id) with
  | none =>
      cases h2 : l2.find? (fun p => p.user_id == u.id) with
      | none => rfl
      | some q =>
          rw [h1, h2] at hfind
          simp [Option.map] at hfind
  | some p =>
      cases h2 : l2.find? (fun p => p.user_id == u.id) with
      | none =>
          rw [h1, h2] at hfind
          simp [Option.map] at hfind
      | some q =>
          rw [h1, h2] at hfind
          simp only [Option.map] at hfind
          obtain ⟨hid, hnt, hrt, hw, hph⟩ :=
            scrubPref_fields (Option.some.inj hfind)
          have hres : resolvePref (some p) = resolvePref (some q) := by
            simp [resolvePref, hnt, hrt]
          rw [hres, dispatchUser_pref_congr env u hw hph]

/-- C9: neither scheduler reads the two opt-in flags: over two preference
tables that agree on everything except `receive_daily_reminders` and
`receive_monthly_reports`, the daily reminder job produces identical
dispatches, count and summary, and the monthly report job produces the
identical result — an opted-out user is notified all the same. -/
theorem optin_flags_unread (env : JobEnv) (l1 l2 : List UserPreference)
    (h : l1.map scrubPref = l2.map scrubPref) :
    send_daily_reminders (withPrefs env l1) =
      send_daily_reminders (withPrefs env l2) ∧
    send_monthly_reports (withPrefs env l1).db env.today =
      send_monthly_reports (withPrefs env l2).db env.today := by
  constructor
  · unfold send_daily_reminders
    simp only [inactiveUsers_withPrefs]
    rw [foldl_dispatch_eq (processUser (withPrefs env l1))
        (inactiveUsers env) [] 0,
      foldl_dispatch_eq (processUser (withPrefs env l2))
        (inactiveUsers env) [] 0]
    have hm1 : (inactiveUsers env).map
        (fun v => (processUser (withPrefs env l1) v).1) =
        (inactiveUsers env).map
          (fun v => (processUser (withPrefs env l2) v).1) :=
      List.map_congr_left
        (fun v _ => by rw [processUser_scrub_congr env l1 l2 h v])
    have hm2 : (inactiveUsers env).map
        (fun v => (processUser (withPrefs env l1) v).2) =
        (inactiveUsers env).map
          (fun v => (processUser (withPrefs env l2) v).2) :=
      List.map_congr_left
        (fun v _ => by rw [processUser_scrub_congr env l1 l2 h v])
    rw [hm1, hm2]
  · rfl

/-- Witness for C9: with user 1 opted in versus opted out of both
notification kinds, the daily job output is identical. -/
theorem optin_flags_unread_witness :
    send_daily_reminders (withPrefs envW [prefOptIn]) =
      send_daily_reminders (withPrefs envW [prefOptOut]) :=
  (optin_flags_unread envW [prefOptIn] [prefOptOut] (by decide)).1

/-! ## C6: the candidate-quiz list is filtered, bounded and ordered -/

theorem quizLexLt_dateBle {a b : Quiz} (h : quizLexLt a b) :
    dateBle a.date_of_quiz b.date_of_quiz = true := by
  rcases h with h | ⟨heq, _⟩
  · exact dateBlt_le h
  · rw [heq]
    exact dateBle_refl _

theorem pairwise_lex_orderedInsert (x : Quiz) :
    ∀ (l : List Quiz), l.Pairwise quizLexLt → (∀ b ∈ l, x.id < b.id) →
      (List.orderedInsert quizDateLe x l).Pairwise quizLexLt := by
  intro l
  induction l with
  | nil =>
      intro _ _
      simp [List.orderedInsert]
  | cons b t ih =>
      intro hp hid
      simp only [List.orderedInsert]
      by_cases hr : quizDateLe x b
      · rw [if_pos hr]
        have hxb : quizLexLt x b := by
          rcases dateBle_cases hr with hlt | heq
          · exact Or.inl hlt
          · exact Or.inr ⟨heq, hid b (List.mem_cons_self b t)⟩
        refine List.Pairwise.cons ?_ hp
        intro c hc
        rcases List.mem_cons.mp hc with rfl | hct
        · exact hxb
        · have hbc : quizLexLt b c := (List.pairwise_cons.mp hp).1 c hct
          have hble : dateBle x.date_of_quiz c.date_of_quiz = true :=
            dateBle_trans hr (quizLexLt_dateBle hbc)
          rcases dateBle_cases hble with hlt | heq
          · exact Or.inl hlt
          · exact Or.inr ⟨heq, hid c (List.mem_cons_of_mem b hct)⟩
      · rw [if_neg hr]
        have hbx : quizLexLt b x :=
          Or.inl (dateBle_total _ _ hr)
        refine List.Pairwise.cons ?_
          (ih (List.pairwise_cons.mp hp).2
            (fun c hc => hid c (List.mem_cons_of_mem b hc)))
        intro c hc
        rcases (List.mem_orderedInsert quizDateLe).mp hc with rfl | hct
        · exact hbx
        · exact (List.pairwise_cons.mp hp).1 c hct

theorem pairwise_lex_insertionSort :
    ∀ (l : List Quiz), l.Pairwise (fun a b => a.id < b.id) →
      (l.insertionSort quizDateLe).Pairwise quizLexLt := by
  intro l
  induction l with
  | nil =>
      intro _
      simp [List.insertionSort]
  | cons a t ih =>
      intro hp
      simp only [List.insertionSort]
      apply pairwise_lex_orderedInsert
      · exact ih (List.pairwise_cons.mp hp).2
      · intro b hb
        exact (List.pairwise_cons.mp hp).1 b
          ((List.mem_insertionSort quizDateLe).mp hb)

/-- C6: when the quiz table scans in ascending id order (the autoincrement
primary key), the daily job's candidate list contains only active quizzes
dated today or later, holds at most 5 quizzes, and is strictly ordered by
date ascending with ties between equal dates broken by the quiz id. -/
theorem upcoming_quizzes_spec (env : JobEnv)
    (h : env.db.quizzes.Pairwise (fun a b => a.id < b.id)) :
    (∀ q ∈ upcomingQuizzes env,
      q.is_active = true ∧ dateBle env.today q.date_of_quiz = true) ∧
    (upcomingQuizzes env).length ≤ 5 ∧
    (upcomingQuizzes env).Pairwise quizLexLt := by
  refine ⟨?_, ?_, ?_⟩
  · intro q hq
    have h1 := List.mem_of_mem_take hq
    have h2 := (List.mem_insertionSort quizDateLe).mp h1
    have h3 := (List.mem_filter.mp h2).2
    exact ⟨(Bool.and_eq_true _ _ ▸ h3).1, (Bool.and_eq_true _ _ ▸ h3).2⟩
  · exact List.length_take_le 5 _
  · exact (pairwise_lex_insertionSort _ (h.filter _)).sublist
      (List.take_sublist 5 _)

/-- Witness for C6: on the concrete environment the candidate list respects
the bound. -/
theorem upcoming_quizzes_spec_witness :
    (upcomingQuizzes envW).length ≤ 5 :=
  (upcoming_quizzes_spec envW (by decide)).2.1

/-- Witness for C1: the two 8-point attempts of the concrete example share
the same rank. -/
theorem rank_for_attempt_spec_witness :
    rank_for_attempt exampleQuizScores 1
      (⟨2, 1, 2, 8, 10, tstamp, none⟩ : Score).score =
    rank_for_attempt exampleQuizScores 1
      (⟨3, 1, 3, 8, 10, tstamp, none⟩ : Score).score :=
  rank_for_attempt_spec.2.1 exampleQuizScores 1
    ⟨2, 1, 2, 8, 10, tstamp, none⟩ ⟨3, 1, 3, 8, 10, tstamp, none⟩ rfl
